import Mathlib

/-
Verification of the analysis-and-entitlement pipeline of the backend service
(src/index.js): a shallow embedding of the five HTTP operations (submit
analysis, classify clauses, create checkout session, release check, fetch
analysis) together with the Firestore-backed entitlement store, the lenient
JSON extraction applied to model output, and the upload file filter.
External collaborators (PDF reader, OCR engine, LLM provider, payment
gateway) are modelled as oracle parameters; everything the handlers do with
their results is translated directly from the source.
-/

set_option maxHeartbeats 1000000

namespace Backend3

/-- Character constants written via code points, used by the scanning code. -/
def openBraceChar : Char := Char.ofNat 123

/-- Closing curly brace character. -/
def closeBraceChar : Char := Char.ofNat 125

/-- Double-quote character. -/
def quoteChar : Char := Char.ofNat 34

/-- Backslash character. -/
def backslashChar : Char := Char.ofNat 92

/-- Backquote character (used by the code-fence stripping fallback). -/
def backquoteChar : Char := Char.ofNat 96

/-- JSON values as produced by the runtime JSON parser the handlers rely on.
Numbers keep their source lexeme: the handlers never do numeric arithmetic. -/
inductive JsonVal : Type where
  | null : JsonVal
  | bool (b : Bool) : JsonVal
  | num (lexeme : String) : JsonVal
  | str (s : String) : JsonVal
  | arr (elems : List JsonVal) : JsonVal
  | obj (fields : List (String × JsonVal)) : JsonVal

/-- JSON insignificant whitespace. -/
def isJsonWs (c : Char) : Bool :=
  c == ' ' || c == Char.ofNat 9 || c == Char.ofNat 10 || c == Char.ofNat 13

/-- Skip leading JSON whitespace. -/
def skipWs (l : List Char) : List Char := l.dropWhile isJsonWs

/-- Value of a hexadecimal digit. -/
def hexVal (c : Char) : Option Nat :=
  if c.isDigit then some (c.toNat - 48)
  else if 97 ≤ c.toNat ∧ c.toNat ≤ 102 then some (c.toNat - 87)
  else if 65 ≤ c.toNat ∧ c.toNat ≤ 70 then some (c.toNat - 55)
  else none

/-- Translation of a single JSON string escape character. -/
def escChar (e : Char) : Option Char :=
  if e == quoteChar then some quoteChar
  else if e == backslashChar then some backslashChar
  else if e == '/' then some '/'
  else if e == 'b' then some (Char.ofNat 8)
  else if e == 'f' then some (Char.ofNat 12)
  else if e == 'n' then some (Char.ofNat 10)
  else if e == 'r' then some (Char.ofNat 13)
  else if e == 't' then some (Char.ofNat 9)
  else none

/-- Parse the body of a JSON string (after the opening quote), fuel-bounded. -/
def parseStrAux : Nat → List Char → List Char → Option (String × List Char)
  | 0, _, _ => none
  | _ + 1, _, [] => none
  | fuel + 1, acc, c :: rest =>
    if c == quoteChar then some (String.mk acc.reverse, rest)
    else if c == backslashChar then
      match rest with
      | [] => none
      | e :: rest2 =>
        if e == 'u' then
          match rest2 with
          | a :: b :: c2 :: d :: rest3 =>
            match hexVal a, hexVal b, hexVal c2, hexVal d with
            | some ha, some hb, some hc, some hd =>
              parseStrAux fuel
                (Char.ofNat (((ha * 16 + hb) * 16 + hc) * 16 + hd) :: acc) rest3
            | _, _, _, _ => none
          | _ => none
        else
          match escChar e with
          | some ec => parseStrAux fuel (ec :: acc) rest2
          | none => none
    else parseStrAux fuel (c :: acc) rest

/-- Lex a JSON number, returning its lexeme and the remaining input. -/
def parseNum (l : List Char) : Option (String × List Char) :=
  let (sign, l1) : List Char × List Char :=
    match l with
    | '-' :: r => (['-'], r)
    | _ => ([], l)
  let ip := l1.takeWhile Char.isDigit
  let l2 := l1.dropWhile Char.isDigit
  if ip.isEmpty then none
  else
    let (fp, l3) : List Char × List Char :=
      match l2 with
      | '.' :: r =>
        let ds := r.takeWhile Char.isDigit
        if ds.isEmpty then ([], l2) else ('.' :: ds, r.dropWhile Char.isDigit)
      | _ => ([], l2)
    let (ep, l4) : List Char × List Char :=
      match l3 with
      | e :: r =>
        if e == 'e' || e == 'E' then
          let (es, r2) : List Char × List Char :=
            match r with
            | s :: r3 => if s == '+' || s == '-' then ([s], r3) else ([], r)
            | [] => ([], r)
          let ds := r2.takeWhile Char.isDigit
          if ds.isEmpty then ([], l3)
          else (e :: (es ++ ds), r2.dropWhile Char.isDigit)
        else ([], l3)
      | [] => ([], l3)
    some (String.mk (sign ++ ip ++ fp ++ ep), l4)

mutual

/-- Parse one JSON value, fuel-bounded. -/
def parseVal : Nat → List Char → Option (JsonVal × List Char)
  | 0, _ => none
  | fuel + 1, l =>
    match skipWs l with
    | [] => none
    | c :: rest =>
      if c == quoteChar then
        match parseStrAux (rest.length + 1) [] rest with
        | some (s, r) => some (.str s, r)
        | none => none
      else if c == openBraceChar then
        match skipWs rest with
        | [] => none
        | c2 :: r2 =>
          if c2 == closeBraceChar then some (.obj [], r2)
          else
            match parseFields fuel (c2 :: r2) with
            | some (fs, r3) => some (.obj fs, r3)
            | none => none
      else if c == '[' then
        match skipWs rest with
        | [] => none
        | c2 :: r2 =>
          if c2 == ']' then some (.arr [], r2)
          else
            match parseElems fuel (c2 :: r2) with
            | some (es, r3) => some (.arr es, r3)
            | none => none
      else if c == 't' then
        if rest.take 3 == ['r', 'u', 'e'] then some (.bool true, rest.drop 3) else none
      else if c == 'f' then
        if rest.take 4 == ['a', 'l', 's', 'e'] then some (.bool false, rest.drop 4) else none
      else if c == 'n' then
        if rest.take 3 == ['u', 'l', 'l'] then some (.null, rest.drop 3) else none
      else
        match parseNum (c :: rest) with
        | some (s, r) => some (.num s, r)
        | none => none

/-- Parse the elements of a non-empty JSON array, up to the closing bracket. -/
def parseElems : Nat → List Char → Option (List JsonVal × List Char)
  | 0, _ => none
  | fuel + 1, l =>
    match parseVal fuel l with
    | none => none
    | some (v, r) =>
      match skipWs r with
      | [] => none
      | c :: r2 =>
        if c == ',' then
          match parseElems fuel r2 with
          | some (vs, r3) => some (v :: vs, r3)
          | none => none
        else if c == ']' then some ([v], r2)
        else none

/-- Parse the members of a non-empty JSON object, up to the closing brace. -/
def parseFields : Nat → List Char → Option (List (String × JsonVal) × List Char)
  | 0, _ => none
  | fuel + 1, l =>
    match skipWs l with
    | [] => none
    | c :: rest =>
      if c == quoteChar then
        match parseStrAux (rest.length + 1) [] rest with
        | some (k, r) =>
          match skipWs r with
          | ':' :: r2 =>
            match parseVal fuel r2 with
            | none => none
            | some (v, r3) =>
              match skipWs r3 with
              | [] => none
              | c3 :: r4 =>
                if c3 == ',' then
                  match parseFields fuel r4 with
                  | some (fs, r5) => some ((k, v) :: fs, r5)
                  | none => none
                else if c3 == closeBraceChar then some ([(k, v)], r4)
                else none
          | _ => none
        | none => none
      else none

end

/-- Model of the strict runtime JSON parse of a complete document
(`JSON.parse`): the whole input must be consumed up to trailing whitespace. -/
def parseJson (s : String) : Option JsonVal :=
  match parseVal (s.length + 1) s.toList with
  | some (v, rest) => if (skipWs rest).isEmpty then some v else none
  | none => none

/-- Drop characters up to (and keeping) the first opening brace; empty result
when the input has no opening brace. First half of the regex
`/{[\s\S]*}/` applied by the classify handler: the match starts at the first
opening brace. -/
def dropToBrace : List Char → List Char
  | [] => []
  | c :: cs => if c == openBraceChar then c :: cs else dropToBrace cs

/-- Keep the prefix of the input up to and including its last closing brace;
`none` when the input has no closing brace. Second half of the regex
`/{[\s\S]*}/`: the greedy body extends the match to the last closing brace. -/
def keepToClose : List Char → Option (List Char)
  | [] => none
  | c :: cs =>
    match keepToClose cs with
    | some r => some (c :: r)
    | none => if c == closeBraceChar then some [c] else none

/-- Model of `resposta.match(/{[\s\S]*}/)`: the substring from the first
opening brace to the last closing brace after it, when such a pair exists. -/
def extractJsonChars (l : List Char) : Option (List Char) :=
  match dropToBrace l with
  | [] => none
  | c :: rest => (keepToClose rest).map (fun r => c :: r)

/-- Lexeme of a fenced code block opener tagged as JSON. -/
def fenceJsonChars : List Char :=
  [backquoteChar, backquoteChar, backquoteChar, 'j', 's', 'o', 'n']

/-- Lexeme of a bare code fence. -/
def fenceChars : List Char := [backquoteChar, backquoteChar, backquoteChar]

/-- Fuel-bounded worker for `stripFences`. -/
def stripFencesAux : Nat → List Char → List Char
  | 0, l => l
  | fuel + 1, l =>
    match l with
    | [] => []
    | c :: cs =>
      if l.take 7 == fenceJsonChars then stripFencesAux fuel (l.drop 7)
      else if l.take 3 == fenceChars then stripFencesAux fuel (l.drop 3)
      else c :: stripFencesAux fuel cs

/-- Model of `resposta.replace(/;json-fence-or-fence;/g, '')`: remove every
occurrence of a JSON-tagged or bare code fence, scanning left to right and
preferring the tagged form, exactly as the regex alternation does. -/
def stripFences (l : List Char) : List Char := stripFencesAux l.length l

/-- Model of `String.prototype.trim`: drop whitespace from both ends. -/
def trimChars (l : List Char) : List Char :=
  ((l.dropWhile isJsonWs).reverse.dropWhile isJsonWs).reverse

/-- JavaScript truthiness of a string that may be absent (`undefined`): both a
missing value and the empty string are falsy. Used for every `if (!x)` guard
on request fields in the handlers. -/
def optStrFalsy : Option String → Bool
  | none => true
  | some s => s == ""

/-- Model of `String.prototype.startsWith`, used on MIME types. -/
def strStartsWith (s pre : String) : Bool := pre.toList.isPrefixOf s.toList

/-- Blank text: empty or consisting solely of whitespace. -/
def isBlank (s : String) : Bool := s.toList.all isJsonWs

/-- JavaScript truthiness of the lexeme of a JSON number: zero is falsy. -/
def numTruthy (lexeme : String) : Bool :=
  (lexeme.toList.takeWhile (fun c => c != 'e' && c != 'E')).any
    (fun c => c.isDigit && c != '0')

/-- JavaScript truthiness of a parsed JSON value (`undefined` is `.null`). -/
def jsTruthy : JsonVal → Bool
  | .null => false
  | .bool b => b
  | .num lexeme => numTruthy lexeme
  | .str s => !s.isEmpty
  | .arr _ => true
  | .obj _ => true

/-- JavaScript property access on a parsed JSON value: `undefined` (here
`.null`) when the value is not an object or lacks the key; the last duplicate
key wins, as in `JSON.parse`. -/
def jget (v : JsonVal) (k : String) : JsonVal :=
  match v with
  | .obj fields =>
    (((fields.filter (fun p => p.1 == k)).getLast?).map (fun p => p.2)).getD .null
  | _ => .null

/-- Model of `x || []` applied to a parsed JSON property. -/
def jsOrEmptyArr (v : JsonVal) : JsonVal := if jsTruthy v then v else .arr []

/-- One stored analysis document (collection "análises de contratos"). The
optional `session_id` is absent until a checkout session is created. -/
structure AnalysisRecord : Type where
  token : String
  uid : String
  data : String
  clausulas : String
  resumoSeguras : JsonVal
  resumoRiscos : JsonVal
  recomendacoes : String
  pago : Bool
  session_id : Option String

/-- The Firestore collection, keyed by token. -/
abbrev Store : Type := List (String × AnalysisRecord)

/-- Document lookup (`.doc(token).get()`). -/
def storeGet : Store → String → Option AnalysisRecord
  | [], _ => none
  | (k, v) :: rest, t => if k = t then some v else storeGet rest t

/-- Document write (`.doc(token).set(...)` or a merge `.update(...)` whose
result record is supplied in full). -/
def storeSet : Store → String → AnalysisRecord → Store
  | [], t, r => [(t, r)]
  | (k, v) :: rest, t, r =>
    if k = t then (t, r) :: rest else (k, v) :: storeSet rest t r

/-- Body of an HTTP JSON response, one constructor per shape the handlers
produce. -/
inductive RespBody : Type where
  | errorMsg (msg : String) : RespBody
  | errorMsgResposta (msg resposta : String) : RespBody
  | liberado (b : Bool) : RespBody
  | analise (r : AnalysisRecord) : RespBody
  | json (v : JsonVal) : RespBody
  | clausulasToken (clausulas token : String) : RespBody
  | url (u : String) : RespBody

/-- An HTTP response: status code plus JSON body. -/
structure HttpResponse : Type where
  status : Nat
  body : RespBody

/-- The multer `fileFilter`: only PDF and image MIME types are accepted. -/
def fileFilter (mimetype : String) : Bool :=
  mimetype == "application/pdf" || strStartsWith mimetype "image/"

/-- The prompt built by the submit-analysis handler around the extracted
text. -/
def mainPrompt (textoExtraido : String) : String :=
  "Leia o texto abaixo de um contrato e destaque as cláusulas que podem ser de risco para o contratante, explicando cada uma delas de forma simples e leiga. Responda em tópicos.\n\nContrato:\n"
    ++ textoExtraido

/-- The prompt built by the classify handler around the clause text. -/
def classifyPrompt (clausulas : String) : String :=
  "Receba a lista de cláusulas abaixo, separe-as em duas listas: \"Cláusulas seguras\" e \"Cláusulas de risco\". Para cada cláusula, gere um resumo curto e simples, sem explicação longa. Responda apenas com o JSON, sem explicações antes ou depois. Exemplo: \x7b \"seguras\": [ \x7b \"titulo\": \"...\", \"resumo\": \"...\" \x7d ], \"riscos\": [ \x7b \"titulo\": \"...\", \"resumo\": \"...\" \x7d ] \x7d.\n\nCláusulas:\n"
    ++ clausulas

/-- The helper `extractTextFromPDF`: the PDF reader is an oracle from file
path to extracted text (`none` when `pdf-parse` throws); an empty extracted
text is rejected by the helper itself (`if (!data.text) throw`). -/
def extractTextFromPDF (pdfParse : String → Option String) (filePath : String) :
    Option String :=
  match pdfParse filePath with
  | none => none
  | some text => if text = "" then none else some text

/-- The helper `extractTextFromImage`: the OCR engine is an oracle from file
path to recognized text (`none` when `Tesseract.recognize` throws). -/
def extractTextFromImage (ocr : String → Option String) (filePath : String) :
    Option String :=
  ocr filePath

/-- An uploaded file as seen by the handler (`req.file`). -/
structure UploadedFile : Type where
  mimetype : String
  path : String

/-- Outcome of the extraction block of the submit-analysis handler. -/
inductive ExtractOutcome : Type where
  | unsupported : ExtractOutcome
  | failed : ExtractOutcome
  | ok (texto : String) : ExtractOutcome

/-- Outcome of the internal `fetch self-call to the classify endpoint` call:
a response whose body parsed (`resumoResp.ok`), a non-ok response, or a
thrown error (caught by the surrounding `try`). -/
inductive ResumoOutcome : Type where
  | ok (resumoData : JsonVal) : ResumoOutcome
  | notOk : ResumoOutcome
  | threw : ResumoOutcome

/-- External collaborators of the submit-analysis handler, plus the two
per-request nondeterministic inputs (the generated token and the current
timestamp). -/
structure SubmitDeps : Type where
  pdfParse : String → Option String
  ocr : String → Option String
  llm : String → Option String
  resumoFetch : String → ResumoOutcome
  newToken : String
  now : String

/-- Observable outcome of one submit-analysis request: the HTTP response, the
resulting store, the key written to the in-memory `paymentTokens` map (if
any), the prompt sent to the main LLM call (if that call was made), and
whether the extraction block ran. -/
structure SubmitOut : Type where
  resp : HttpResponse
  store : Store
  tokenWritten : Option String
  llmPrompt : Option String
  extractAttempted : Bool

/-- The extraction block of the submit-analysis handler: PDF first, then
images, every other MIME type rejected; extraction errors are caught. -/
def extractStep (d : SubmitDeps) (f : UploadedFile) : ExtractOutcome :=
  if f.mimetype == "application/pdf" then
    match extractTextFromPDF d.pdfParse f.path with
    | none => .failed
    | some t => .ok t
  else if strStartsWith f.mimetype "image/" then
    match extractTextFromImage d.ocr f.path with
    | none => .failed
    | some t => .ok t
  else .unsupported

/-- The `POST /api/analisar-contrato` handler. -/
def analisarContrato (d : SubmitDeps) (store : Store) (file : Option UploadedFile)
    (uid : Option String) : SubmitOut :=
  match file with
  | none => ⟨⟨400, .errorMsg "Arquivo não enviado."⟩, store, none, none, false⟩
  | some f =>
    if optStrFalsy uid then
      ⟨⟨400, .errorMsg "Usuário não autenticado (uid não enviado)."⟩, store, none,
        none, false⟩
    else
      match extractStep d f with
      | .unsupported =>
        ⟨⟨400, .errorMsg "Tipo de arquivo não suportado."⟩, store, none, none, false⟩
      | .failed =>
        ⟨⟨500, .errorMsg "Erro ao extrair texto do arquivo."⟩, store, none, none, true⟩
      | .ok texto =>
        let prompt := mainPrompt texto
        match d.llm prompt with
        | none =>
          ⟨⟨500, .errorMsg "Erro ao processar o contrato."⟩, store, none, some prompt,
            true⟩
        | some resposta =>
          let token := d.newToken
          let resumo := d.resumoFetch resposta
          let resumoSeguras :=
            match resumo with
            | .ok v => jsOrEmptyArr (jget v "seguras")
            | _ => .arr []
          let resumoRiscos :=
            match resumo with
            | .ok v => jsOrEmptyArr (jget v "riscos")
            | _ => .arr []
          let recomendacoes :=
            match resumo with
            | .threw => ""
            | _ => "Considere consultar um advogado para revisar o contrato."
          let registro : AnalysisRecord :=
            { token := token, uid := uid.getD "", data := d.now,
              clausulas := resposta, resumoSeguras := resumoSeguras,
              resumoRiscos := resumoRiscos, recomendacoes := recomendacoes,
              pago := false, session_id := none }
          ⟨⟨200, .clausulasToken resposta token⟩, storeSet store token registro,
            some token, some prompt, true⟩

/-- The JSON-recovery pipeline of the classify handler: extract the first
brace-to-last-brace block and parse it; when no block exists, strip code
fences, trim, and parse the remainder. A parse failure in either stage yields
`none` (the handler catch clause). -/
def parsePipeline (resposta : String) : Option JsonVal :=
  match extractJsonChars resposta.toList with
  | some m => parseJson (String.mk m)
  | none => parseJson (String.mk (trimChars (stripFences resposta.toList)))

/-- The `POST /api/resumir-clausulas` handler; the LLM is an oracle from
prompt to response content (`none` when the provider call throws). -/
def resumirClausulas (llm : String → Option String) (clausulas : Option String) :
    HttpResponse :=
  if optStrFalsy clausulas then ⟨400, .errorMsg "Cláusulas não enviadas."⟩
  else
    match llm (classifyPrompt (clausulas.getD "")) with
    | none => ⟨500, .errorMsg "Erro ao resumir cláusulas."⟩
    | some resposta =>
      match parsePipeline resposta with
      | some v => ⟨200, .json v⟩
      | none => ⟨500, .errorMsgResposta "Erro ao interpretar resposta da IA." resposta⟩

/-- The internal self-call the submit-analysis handler makes to the classify
operation, as a `ResumoOutcome`: a 200 response is `resumoResp.ok` and its
parsed body is used; any other response is not ok. -/
def resumoCallOf (llm2 : String → Option String) (clausulas : String) : ResumoOutcome :=
  let resp := resumirClausulas llm2 (some clausulas)
  if resp.status = 200 then
    match resp.body with
    | .json v => .ok v
    | _ => .notOk
  else .notOk

/-- A checkout session as returned by the payment gateway. -/
structure StripeSession : Type where
  id : String
  url : String

/-- The `POST /api/create-checkout-session` handler. The gateway is an oracle
from token to created session (`none` when `stripe.checkout.sessions.create`
throws); the subsequent Firestore `update` throws — caught as a 500 — when no
document exists for the token. -/
def createCheckoutSession (mkSession : String → Option StripeSession) (store : Store)
    (tok : Option String) : HttpResponse × Store :=
  if optStrFalsy tok then (⟨400, .errorMsg "Token do contrato não enviado."⟩, store)
  else
    let t := tok.getD ""
    match mkSession t with
    | none => (⟨500, .errorMsg "Erro ao criar sessão de pagamento."⟩, store)
    | some sess =>
      match storeGet store t with
      | none => (⟨500, .errorMsg "Erro ao criar sessão de pagamento."⟩, store)
      | some analise =>
        (⟨200, .url sess.url⟩,
          storeSet store t { analise with session_id := some sess.id, pago := false })

/-- The `GET /api/analise-liberada` handler. The gateway is an oracle from
session id to its `payment_status` (`none` when the retrieve call throws). -/
def analiseLiberada (gw : String → Option String) (store : Store)
    (tok : Option String) : HttpResponse × Store :=
  if optStrFalsy tok then (⟨404, .errorMsg "Token inválido."⟩, store)
  else
    let t := tok.getD ""
    match storeGet store t with
    | none => (⟨404, .errorMsg "Token inválido."⟩, store)
    | some analise =>
      if optStrFalsy analise.session_id then
        (⟨400, .errorMsg "Sessão de pagamento não encontrada."⟩, store)
      else
        match gw (analise.session_id.getD "") with
        | none => (⟨500, .errorMsg "Erro ao consultar pagamento."⟩, store)
        | some status =>
          if status = "paid" then
            (⟨200, .liberado true⟩, storeSet store t { analise with pago := true })
          else (⟨200, .liberado false⟩, store)

/-- The `GET /api/analise-por-token` handler. -/
def analisePorToken (store : Store) (tok : Option String) : HttpResponse :=
  if optStrFalsy tok then ⟨400, .errorMsg "Token não enviado."⟩
  else
    match storeGet store (tok.getD "") with
    | none => ⟨404, .errorMsg "Análise não encontrada."⟩
    | some analise =>
      if analise.pago = false then ⟨403, .errorMsg "Pagamento não confirmado."⟩
      else ⟨200, .analise analise⟩

/-- The whole mutable state of one server process: the Firestore collection
plus the deprecated in-memory `paymentTokens` map (token to its
`liberado` flag). -/
structure AppState : Type where
  store : Store
  paymentTokens : List (String × Bool)

/-- The release-check handler lifted to the full process state: its code
reads and writes only the Firestore collection. -/
def appAnaliseLiberada (gw : String → Option String) (s : AppState)
    (tok : Option String) : HttpResponse × AppState :=
  let r := analiseLiberada gw s.store tok
  (r.1, { store := r.2, paymentTokens := s.paymentTokens })

/-- The fetch-analysis handler lifted to the full process state: its code
reads only the Firestore collection. -/
def appAnalisePorToken (s : AppState) (tok : Option String) : HttpResponse :=
  analisePorToken s.store tok

/-- The store after `n` successive calls of the release-check operation with
the same token. -/
def iterLiberada (gw : String → Option String) (tok : Option String) :
    Nat → Store → Store
  | 0, s => s
  | n + 1, s => iterLiberada gw tok n (analiseLiberada gw s tok).2

theorem storeGet_storeSet_self (s : Store) (t : String) (r : AnalysisRecord) :
    storeGet (storeSet s t r) t = some r := by
  induction s with
  | nil => simp [storeSet, storeGet]
  | cons hd tl ih =>
    obtain ⟨k, v⟩ := hd
    by_cases h : k = t
    · simp [storeSet, storeGet, h]
    · simp [storeSet, storeGet, h, ih]

theorem storeGet_storeSet_ne (s : Store) (t t' : String) (r : AnalysisRecord)
    (h : t ≠ t') : storeGet (storeSet s t r) t' = storeGet s t' := by
  induction s with
  | nil => simp [storeSet, storeGet, h]
  | cons hd tl ih =>
    obtain ⟨k, v⟩ := hd
    by_cases hk : k = t
    · subst hk
      simp [storeSet, storeGet, h]
    · simp [storeSet, storeGet, hk, ih]

theorem storeSet_eq_of_get (s : Store) (t : String) (r : AnalysisRecord)
    (h : storeGet s t = some r) : storeSet s t r = s := by
  induction s with
  | nil => simp [storeGet] at h
  | cons hd tl ih =>
    obtain ⟨k, v⟩ := hd
    by_cases hk : k = t
    · subst hk
      simp [storeGet] at h
      simp [storeSet, h]
    · simp [storeGet, hk] at h
      simp [storeSet, hk, ih h]

theorem dropToBrace_append (p l : List Char) (hp : openBraceChar ∉ p) :
    dropToBrace (p ++ l) = dropToBrace l := by
  induction p with
  | nil => simp
  | cons c cs ih =>
    simp only [List.mem_cons, not_or] at hp
    have hc : (c == openBraceChar) = false :=
      beq_eq_false_iff_ne.mpr (fun hcc => hp.1 hcc.symm)
    simp [dropToBrace, hc, ih hp.2]

theorem keepToClose_eq_none (s : List Char) (hs : closeBraceChar ∉ s) :
    keepToClose s = none := by
  induction s with
  | nil => simp [keepToClose]
  | cons c cs ih =>
    simp only [List.mem_cons, not_or] at hs
    have hc : (c == closeBraceChar) = false :=
      beq_eq_false_iff_ne.mpr (fun hcc => hs.1 hcc.symm)
    simp [keepToClose, ih hs.2, hc]

theorem keepToClose_append (m s : List Char) (hs : closeBraceChar ∉ s) :
    keepToClose (m ++ s) = keepToClose m := by
  induction m with
  | nil => simp [keepToClose, keepToClose_eq_none s hs]
  | cons c cs ih => simp [keepToClose, ih]

theorem keepToClose_append_close (m : List Char) :
    keepToClose (m ++ [closeBraceChar]) = some (m ++ [closeBraceChar]) := by
  induction m with
  | nil => simp [keepToClose]
  | cons c cs ih => simp [keepToClose, ih]

theorem extractJsonChars_embedded (p mid s : List Char)
    (hp : openBraceChar ∉ p) (hs : closeBraceChar ∉ s) :
    extractJsonChars (p ++ (openBraceChar :: (mid ++ [closeBraceChar])) ++ s)
      = some (openBraceChar :: (mid ++ [closeBraceChar])) := by
  have h1 : p ++ (openBraceChar :: (mid ++ [closeBraceChar])) ++ s
      = p ++ (openBraceChar :: ((mid ++ [closeBraceChar]) ++ s)) := by
    simp
  rw [h1]
  simp only [extractJsonChars]
  rw [dropToBrace_append _ _ hp]
  have h2 : dropToBrace (openBraceChar :: ((mid ++ [closeBraceChar]) ++ s))
      = openBraceChar :: ((mid ++ [closeBraceChar]) ++ s) := by
    simp [dropToBrace]
  rw [h2]
  dsimp only
  rw [keepToClose_append _ _ hs, keepToClose_append_close]
  rfl

theorem extractJsonChars_eq_none (l : List Char) (h : openBraceChar ∉ l) :
    extractJsonChars l = none := by
  have hd : dropToBrace l = [] := by
    induction l with
    | nil => simp [dropToBrace]
    | cons c cs ih =>
      simp only [List.mem_cons, not_or] at h
      have hc : (c == openBraceChar) = false :=
        beq_eq_false_iff_ne.mpr (fun hcc => h.1 hcc.symm)
      simp [dropToBrace, hc, ih h.2]
  simp only [extractJsonChars, hd]

theorem optStrFalsy_some_of_ne (t : String) (h : t ≠ "") :
    optStrFalsy (some t) = false := by
  simp [optStrFalsy, h]

/-- Sample stored record, paid, with a checkout session. -/
def samplePaid : AnalysisRecord :=
  { token := "tok1", uid := "u1", data := "2024-01-01T00:00:00Z",
    clausulas := "Cláusula 1: rescisão unilateral.",
    resumoSeguras := .arr [], resumoRiscos := .arr [],
    recomendacoes := "Considere consultar um advogado para revisar o contrato.",
    pago := true, session_id := some "cs_1" }

/-- Sample stored record, unpaid, with a checkout session. -/
def sampleUnpaid : AnalysisRecord := { samplePaid with token := "tok2", pago := false }

/-- Sample external collaborators for the submit-analysis handler. -/
def sampleDeps : SubmitDeps :=
  { pdfParse := fun _ => some "Cláusula 1: rescisão unilateral.",
    ocr := fun _ => some "", llm := fun _ => some "Análise: risco na cláusula 1.",
    resumoFetch := fun _ => .notOk, newToken := "tok9",
    now := "2024-01-01T00:00:00Z" }

/-- Sample uploaded image file. -/
def sampleImage : UploadedFile := { mimetype := "image/png", path := "/tmp/up1" }

/-- Sample uploaded PDF file. -/
def samplePdf : UploadedFile := { mimetype := "application/pdf", path := "/tmp/up2" }

/-- C10: the release-check operation answers a missing or empty `token` query
parameter with status 404, while the fetch-analysis operation answers the
same condition with status 400. -/
theorem C10_missing_token_statuses (gw : String → Option String) (store : Store) :
    (analiseLiberada gw store none).1.status = 404 ∧
    (analiseLiberada gw store (some "")).1.status = 404 ∧
    (analisePorToken store none).status = 400 ∧
    (analisePorToken store (some "")).status = 400 :=
  ⟨rfl, rfl, rfl, rfl⟩

/-- C9: the in-memory `paymentTokens` map is never consulted by the
release-check or fetch-analysis operations: two process states that agree on
the document store produce identical statuses, bodies and resulting stores,
whatever the map contains. -/
theorem C9_tokenMap_never_consulted (gw : String → Option String)
    (s1 s2 : AppState) (tok : Option String) (h : s1.store = s2.store) :
    (appAnaliseLiberada gw s1 tok).1 = (appAnaliseLiberada gw s2 tok).1 ∧
    (appAnaliseLiberada gw s1 tok).2.store = (appAnaliseLiberada gw s2 tok).2.store ∧
    appAnalisePorToken s1 tok = appAnalisePorToken s2 tok := by
  simp [appAnaliseLiberada, appAnalisePorToken, h]

/-- C9 witness: two states with equal stores but different token maps. -/
theorem C9_tokenMap_never_consulted_witness :
    (appAnaliseLiberada (fun _ => some "paid")
        ⟨[("tok1", samplePaid)], []⟩ (some "tok1")).1
      = (appAnaliseLiberada (fun _ => some "paid")
        ⟨[("tok1", samplePaid)], [("tok1", true)]⟩ (some "tok1")).1 ∧
    (appAnaliseLiberada (fun _ => some "paid")
        ⟨[("tok1", samplePaid)], []⟩ (some "tok1")).2.store
      = (appAnaliseLiberada (fun _ => some "paid")
        ⟨[("tok1", samplePaid)], [("tok1", true)]⟩ (some "tok1")).2.store ∧
    appAnalisePorToken ⟨[("tok1", samplePaid)], []⟩ (some "tok1")
      = appAnalisePorToken ⟨[("tok1", samplePaid)], [("tok1", true)]⟩ (some "tok1") :=
  C9_tokenMap_never_consulted (fun _ => some "paid")
    ⟨[("tok1", samplePaid)], []⟩ ⟨[("tok1", samplePaid)], [("tok1", true)]⟩
    (some "tok1") rfl

/-- C5 counterexample: a file declared `text/plain` is rejected by the upload
filter, contradicting the claim that it is accepted and read as raw text. -/
theorem C5_counterexample : fileFilter "text/plain" = false := rfl

/-- C5 (amended): the upload filter accepts exactly `application/pdf` and
`image/*`; every other declared media type, `text/plain` included, is
rejected before extraction. -/
theorem C5_fileFilter_amended (m : String) :
    fileFilter m = true ↔ (m = "application/pdf" ∨ strStartsWith m "image/" = true) := by
  simp [fileFilter]

/-- C2: the fetch-analysis operation returns the full stored record exactly
when a record exists for the token and is paid; it returns 400 on a missing
token, 404 on an unknown token, 403 on an unpaid record, and in the latter
two cases the body is a constant error message carrying no record content. -/
theorem C2_fetch_gating (store : Store) (tok : Option String) :
    (optStrFalsy tok = true →
      analisePorToken store tok = ⟨400, .errorMsg "Token não enviado."⟩) ∧
    (∀ t, tok = some t → optStrFalsy tok = false → storeGet store t = none →
      analisePorToken store tok = ⟨404, .errorMsg "Análise não encontrada."⟩) ∧
    (∀ t r, tok = some t → optStrFalsy tok = false → storeGet store t = some r →
      r.pago = false →
      analisePorToken store tok = ⟨403, .errorMsg "Pagamento não confirmado."⟩) ∧
    (∀ t r, tok = some t → optStrFalsy tok = false → storeGet store t = some r →
      (analisePorToken store tok = ⟨200, .analise r⟩ ↔ r.pago = true)) := by
  refine ⟨?_, ?_, ?_, ?_⟩
  · intro h
    simp [analisePorToken, h]
  · rintro t rfl h hg
    simp [analisePorToken, h, hg]
  · rintro t r rfl h hg hp
    simp [analisePorToken, h, hg, hp]
  · rintro t r rfl h hg
    cases hpago : r.pago with
    | true => simp [analisePorToken, h, hg, hpago]
    | false => simp [analisePorToken, h, hg, hpago]

/-- C2 witness: an unpaid record yields 403; a paid record yields the full
record. -/
theorem C2_fetch_gating_witness :
    analisePorToken [("tok2", sampleUnpaid)] (some "tok2")
      = ⟨403, .errorMsg "Pagamento não confirmado."⟩ ∧
    (analisePorToken [("tok1", samplePaid)] (some "tok1")
      = ⟨200, .analise samplePaid⟩ ↔ samplePaid.pago = true) :=
  ⟨(C2_fetch_gating [("tok2", sampleUnpaid)] (some "tok2")).2.2.1 "tok2" sampleUnpaid
      rfl rfl rfl rfl,
    (C2_fetch_gating [("tok1", samplePaid)] (some "tok1")).2.2.2 "tok1" samplePaid
      rfl rfl rfl⟩

/-- C7: a submit-analysis request with no file or with a missing (or empty)
uid is answered 400 with no extraction attempt, no LLM call, no store write
and no token-map write. -/
theorem C7_missing_file_or_uid (d : SubmitDeps) (store : Store)
    (file : Option UploadedFile) (uid : Option String)
    (h : file = none ∨ optStrFalsy uid = true) :
    (analisarContrato d store file uid).resp.status = 400 ∧
    (analisarContrato d store file uid).store = store ∧
    (analisarContrato d store file uid).llmPrompt = none ∧
    (analisarContrato d store file uid).extractAttempted = false ∧
    (analisarContrato d store file uid).tokenWritten = none := by
  rcases h with h | h
  · subst h
    exact ⟨rfl, rfl, rfl, rfl, rfl⟩
  · cases file with
    | none => exact ⟨rfl, rfl, rfl, rfl, rfl⟩
    | some f => simp [analisarContrato, h]

/-- C7 witness: a request with no file. -/
theorem C7_missing_file_or_uid_witness :
    (analisarContrato sampleDeps [] none (some "u1")).resp.status = 400 ∧
    (analisarContrato sampleDeps [] none (some "u1")).store = [] ∧
    (analisarContrato sampleDeps [] none (some "u1")).llmPrompt = none ∧
    (analisarContrato sampleDeps [] none (some "u1")).extractAttempted = false ∧
    (analisarContrato sampleDeps [] none (some "u1")).tokenWritten = none :=
  C7_missing_file_or_uid sampleDeps [] none (some "u1") (Or.inl rfl)

/-- Single release-check call when the stored record has a session the
gateway reports as paid: the response is `liberado: true` and the record is
rewritten with `pago := true`. -/
theorem analiseLiberada_paid_call (gw : String → Option String) (store : Store)
    (t sid : String) (a : AnalysisRecord)
    (ht : t ≠ "") (ha : storeGet store t = some a) (hs : a.session_id = some sid)
    (hsid : sid ≠ "") (hgw : gw sid = some "paid") :
    analiseLiberada gw store (some t)
      = (⟨200, .liberado true⟩, storeSet store t { a with pago := true }) := by
  have htf : optStrFalsy (some t) = false := optStrFalsy_some_of_ne t ht
  have hsidf : optStrFalsy (some sid) = false := optStrFalsy_some_of_ne sid hsid
  simp [analiseLiberada, htf, ha, hs, hsidf, hgw]

/-- C3: once the gateway reports the session paid, every call of the
release-check operation — after any number of earlier calls — answers
`{liberado: true}`, and the store is always the original store with the
record field `pago` rewritten to `true` and every other field unchanged. -/
theorem C3_release_idempotent (gw : String → Option String) (store : Store)
    (t sid : String) (r : AnalysisRecord)
    (ht : t ≠ "") (hr : storeGet store t = some r) (hs : r.session_id = some sid)
    (hsid : sid ≠ "") (hgw : gw sid = some "paid") :
    ∀ n : Nat,
      analiseLiberada gw (iterLiberada gw (some t) n store) (some t)
        = (⟨200, .liberado true⟩, storeSet store t { r with pago := true }) := by
  have call1 : analiseLiberada gw store (some t)
      = (⟨200, .liberado true⟩, storeSet store t { r with pago := true }) :=
    analiseLiberada_paid_call gw store t sid r ht hr hs hsid hgw
  have hr2 : storeGet (storeSet store t { r with pago := true }) t
      = some { r with pago := true } := storeGet_storeSet_self _ _ _
  have call2 : analiseLiberada gw (storeSet store t { r with pago := true }) (some t)
      = (⟨200, .liberado true⟩, storeSet store t { r with pago := true }) := by
    have h := analiseLiberada_paid_call gw (storeSet store t { r with pago := true })
      t sid { r with pago := true } ht hr2 hs hsid hgw
    rw [h]
    exact congrArg (Prod.mk (⟨200, RespBody.liberado true⟩ : HttpResponse))
      (storeSet_eq_of_get _ _ _ hr2)
  have iterfix : ∀ n, iterLiberada gw (some t) n (storeSet store t { r with pago := true })
      = storeSet store t { r with pago := true } := by
    intro n
    induction n with
    | zero => rfl
    | succ k ih =>
      have hstep : iterLiberada gw (some t) (k + 1) (storeSet store t { r with pago := true })
          = iterLiberada gw (some t) k
            ((analiseLiberada gw (storeSet store t { r with pago := true }) (some t)).2) := rfl
      rw [hstep, call2]
      exact ih
  intro n
  cases n with
  | zero => exact call1
  | succ k =>
    have hstep : iterLiberada gw (some t) (k + 1) store
        = iterLiberada gw (some t) k ((analiseLiberada gw store (some t)).2) := rfl
    rw [hstep, call1]
    rw [iterfix k]
    exact call2

/-- C3 witness: two prior calls, third call still answers `liberado: true`
with the once-updated store. -/
theorem C3_release_idempotent_witness :
    analiseLiberada (fun _ => some "paid")
        (iterLiberada (fun _ => some "paid") (some "tok1") 2 [("tok1", samplePaid)])
        (some "tok1")
      = (⟨200, .liberado true⟩,
          storeSet [("tok1", samplePaid)] "tok1" { samplePaid with pago := true }) :=
  C3_release_idempotent (fun _ => some "paid") [("tok1", samplePaid)] "tok1" "cs_1"
    samplePaid (by decide) rfl rfl (by decide) rfl 2

/-- Case analysis of the store produced by one release-check call: either the
store is untouched, or the record found under the queried token is rewritten
with `pago := true`. -/
theorem analiseLiberada_store_cases (gw : String → Option String) (store : Store)
    (tok : Option String) :
    (analiseLiberada gw store tok).2 = store ∨
    ∃ a, storeGet store (tok.getD "") = some a ∧
      (analiseLiberada gw store tok).2
        = storeSet store (tok.getD "") { a with pago := true } := by
  by_cases hf : optStrFalsy tok = true
  · left
    simp [analiseLiberada, hf]
  · simp only [Bool.not_eq_true] at hf
    cases hg : storeGet store (tok.getD "") with
    | none =>
      left
      simp [analiseLiberada, hf, hg]
    | some a =>
      by_cases hsf : optStrFalsy a.session_id = true
      · left
        simp [analiseLiberada, hf, hg, hsf]
      · simp only [Bool.not_eq_true] at hsf
        cases hgw : gw (a.session_id.getD "") with
        | none =>
          left
          simp [analiseLiberada, hf, hg, hsf, hgw]
        | some st =>
          by_cases hst : st = "paid"
          · right
            exact ⟨a, rfl, by simp [analiseLiberada, hf, hg, hsf, hgw, hst]⟩
          · left
            simp [analiseLiberada, hf, hg, hsf, hgw, hst]

/-- Case analysis of the store produced by one submit-analysis call: either
the store is untouched, or a record is written under the freshly generated
token. -/
theorem analisarContrato_store_cases (d : SubmitDeps) (store : Store)
    (file : Option UploadedFile) (uid : Option String) :
    (analisarContrato d store file uid).store = store ∨
    ∃ reg, (analisarContrato d store file uid).store
        = storeSet store d.newToken reg := by
  cases file with
  | none => left; rfl
  | some f =>
    by_cases hu : optStrFalsy uid = true
    · left
      simp [analisarContrato, hu]
    · simp only [Bool.not_eq_true] at hu
      cases hes : extractStep d f with
      | unsupported =>
        left
        simp [analisarContrato, hu, hes]
      | failed =>
        left
        simp [analisarContrato, hu, hes]
      | ok texto =>
        cases hllm : d.llm (mainPrompt texto) with
        | none =>
          left
          simp [analisarContrato, hu, hes, hllm]
        | some resposta =>
          right
          simp [analisarContrato, hu, hes, hllm]

/-- C1 counterexample: `samplePaid` is paid, yet creating a checkout session
for its token leaves the stored record with `pago = false`. -/
theorem C1_counterexample :
    samplePaid.pago = true ∧
    (storeGet (createCheckoutSession (fun _ => some ⟨"cs_2", "https://pay.example"⟩)
        [("tok1", samplePaid)] (some "tok1")).2 "tok1").map (fun r => r.pago)
      = some false :=
  ⟨rfl, rfl⟩

/-- C1 (amended): the `pago` flag is preserved at `true` by the release-check
and submit-analysis operations (the latter writing only under its fresh
token), while the create-checkout operation unconditionally rewrites the
record of its token with `pago = false`, so a paid token is reset to unpaid
by checkout creation. -/
theorem C1_paid_monotone_amended :
    (∀ (gw : String → Option String) (store : Store) (tok : Option String)
        (t : String) (r : AnalysisRecord),
      storeGet store t = some r → r.pago = true →
      ∃ r2, storeGet (analiseLiberada gw store tok).2 t = some r2 ∧ r2.pago = true) ∧
    (∀ (d : SubmitDeps) (store : Store) (file : Option UploadedFile)
        (uid : Option String) (t : String) (r : AnalysisRecord),
      storeGet store t = some r → r.pago = true → d.newToken ≠ t →
      ∃ r2, storeGet (analisarContrato d store file uid).store t = some r2 ∧
        r2.pago = true) ∧
    (∀ (mkSession : String → Option StripeSession) (store : Store) (t : String)
        (r : AnalysisRecord) (sess : StripeSession),
      storeGet store t = some r → mkSession t = some sess → t ≠ "" →
      ∃ r2, storeGet (createCheckoutSession mkSession store (some t)).2 t = some r2 ∧
        r2.pago = false) := by
  refine ⟨?_, ?_, ?_⟩
  · intro gw store tok t r hget hp
    rcases analiseLiberada_store_cases gw store tok with hcase | ⟨a, hga, hcase⟩
    · exact ⟨r, by rw [hcase, hget], hp⟩
    · by_cases heq : tok.getD "" = t
      · subst heq
        rw [hget] at hga
        cases hga
        exact ⟨{ r with pago := true }, by rw [hcase, storeGet_storeSet_self], rfl⟩
      · exact ⟨r, by rw [hcase, storeGet_storeSet_ne _ _ _ _ heq, hget], hp⟩
  · intro d store file uid t r hget hp hne
    rcases analisarContrato_store_cases d store file uid with hcase | ⟨reg, hcase⟩
    · exact ⟨r, by rw [hcase, hget], hp⟩
    · exact ⟨r, by rw [hcase, storeGet_storeSet_ne _ _ _ _ hne, hget], hp⟩
  · intro mkSession store t r sess hget hmk ht
    have htf : optStrFalsy (some t) = false := optStrFalsy_some_of_ne t ht
    refine ⟨{ r with session_id := some sess.id, pago := false }, ?_, rfl⟩
    simp [createCheckoutSession, htf, hmk, hget, storeGet_storeSet_self]

/-- C1 witness: instances of all three parts at concrete inputs. -/
theorem C1_paid_monotone_amended_witness :
    (∃ r2, storeGet (analiseLiberada (fun _ => some "paid") [("tok1", samplePaid)]
        (some "tok1")).2 "tok1" = some r2 ∧ r2.pago = true) ∧
    (∃ r2, storeGet (analisarContrato sampleDeps [("tok1", samplePaid)]
        (some samplePdf) (some "u1")).store "tok1" = some r2 ∧ r2.pago = true) ∧
    (∃ r2, storeGet (createCheckoutSession (fun _ => some ⟨"cs_2", "https://pay.example"⟩)
        [("tok1", samplePaid)] (some "tok1")).2 "tok1" = some r2 ∧ r2.pago = false) :=
  ⟨C1_paid_monotone_amended.1 (fun _ => some "paid") [("tok1", samplePaid)]
      (some "tok1") "tok1" samplePaid rfl rfl,
    C1_paid_monotone_amended.2.1 sampleDeps [("tok1", samplePaid)] (some samplePdf)
      (some "u1") "tok1" samplePaid rfl rfl (by decide),
    C1_paid_monotone_amended.2.2 (fun _ => some ⟨"cs_2", "https://pay.example"⟩)
      [("tok1", samplePaid)] "tok1" samplePaid ⟨"cs_2", "https://pay.example"⟩
      rfl rfl (by decide)⟩

/-- Collaborators whose OCR yields blank text. -/
def blankOcrDeps : SubmitDeps :=
  { pdfParse := fun _ => none, ocr := fun _ => some "",
    llm := fun _ => some "Análise do contrato.", resumoFetch := fun _ => .notOk,
    newToken := "tok9", now := "2024-01-01T00:00:00Z" }

/-- Collaborators whose PDF reader yields an empty extracted text. -/
def emptyPdfDeps : SubmitDeps :=
  { pdfParse := fun _ => some "", ocr := fun _ => none,
    llm := fun _ => some "Análise do contrato.", resumoFetch := fun _ => .notOk,
    newToken := "tok8", now := "2024-01-01T00:00:00Z" }

/-- C4 counterexample: an image whose OCR yields the empty (blank) string is
not treated as a 400 "document unreadable" error: the blank text is sent to
the LLM, the request succeeds with status 200, a token is issued and a
record is stored. -/
theorem C4_counterexample :
    isBlank "" = true ∧
    (analisarContrato blankOcrDeps [] (some sampleImage) (some "u1")).resp.status = 200 ∧
    (analisarContrato blankOcrDeps [] (some sampleImage) (some "u1")).llmPrompt
      = some (mainPrompt "") ∧
    (analisarContrato blankOcrDeps [] (some sampleImage) (some "u1")).tokenWritten
      = some "tok9" ∧
    (storeGet (analisarContrato blankOcrDeps [] (some sampleImage) (some "u1")).store
      "tok9").isSome = true :=
  ⟨rfl, rfl, rfl, rfl, rfl⟩

/-- C4 (amended): blank extracted text is not rejected as a validation
error: an image upload whose OCR output is blank proceeds — the blank text
is sent to the LLM and a token and record are produced — while a PDF whose
extracted text is the empty string fails with a 500 extraction error (not
400) and no LLM call. -/
theorem C4_blank_text_amended :
    (∀ (d : SubmitDeps) (store : Store) (f : UploadedFile)
        (uid texto resposta : String),
      strStartsWith f.mimetype "image/" = true → uid ≠ "" →
      d.ocr f.path = some texto → isBlank texto = true →
      d.llm (mainPrompt texto) = some resposta →
      (analisarContrato d store (some f) (some uid)).resp
        = ⟨200, .clausulasToken resposta d.newToken⟩ ∧
      (analisarContrato d store (some f) (some uid)).llmPrompt
        = some (mainPrompt texto) ∧
      (storeGet (analisarContrato d store (some f) (some uid)).store
        d.newToken).isSome = true) ∧
    (∀ (d : SubmitDeps) (store : Store) (f : UploadedFile) (uid : String),
      f.mimetype = "application/pdf" → uid ≠ "" →
      d.pdfParse f.path = some "" →
      (analisarContrato d store (some f) (some uid)).resp.status = 500 ∧
      (analisarContrato d store (some f) (some uid)).llmPrompt = none) := by
  constructor
  · intro d store f uid texto resposta hm hu hocr hblank hllm
    have hpdf : (f.mimetype == "application/pdf") = false := by
      cases hb : f.mimetype == "application/pdf" with
      | false => rfl
      | true =>
        have hb2 : f.mimetype = "application/pdf" := beq_iff_eq.mp hb
        rw [hb2] at hm
        exact absurd hm (by decide)
    have huf : optStrFalsy (some uid) = false := optStrFalsy_some_of_ne uid hu
    have hes : extractStep d f = .ok texto := by
      simp [extractStep, hpdf, hm, extractTextFromImage, hocr]
    refine ⟨?_, ?_, ?_⟩
    · simp [analisarContrato, huf, hes, hllm]
    · simp [analisarContrato, huf, hes, hllm]
    · simp [analisarContrato, huf, hes, hllm, storeGet_storeSet_self]
  · intro d store f uid hm hu hp
    have huf : optStrFalsy (some uid) = false := optStrFalsy_some_of_ne uid hu
    have hes : extractStep d f = .failed := by
      simp [extractStep, hm, extractTextFromPDF, hp]
    exact ⟨by simp [analisarContrato, huf, hes], by simp [analisarContrato, huf, hes]⟩

/-- C4 amended witness: a concrete blank-OCR image run and a concrete
empty-text PDF run. -/
theorem C4_blank_text_amended_witness :
    ((analisarContrato blankOcrDeps [] (some sampleImage) (some "u1")).resp
        = ⟨200, .clausulasToken "Análise do contrato." "tok9"⟩ ∧
      (analisarContrato blankOcrDeps [] (some sampleImage) (some "u1")).llmPrompt
        = some (mainPrompt "") ∧
      (storeGet (analisarContrato blankOcrDeps [] (some sampleImage) (some "u1")).store
        "tok9").isSome = true) ∧
    ((analisarContrato emptyPdfDeps [] (some samplePdf) (some "u1")).resp.status = 500 ∧
      (analisarContrato emptyPdfDeps [] (some samplePdf) (some "u1")).llmPrompt
        = none) :=
  ⟨C4_blank_text_amended.1 blankOcrDeps [] sampleImage "u1" "" "Análise do contrato."
      rfl (by decide) rfl rfl rfl,
    C4_blank_text_amended.2 emptyPdfDeps [] samplePdf "u1" rfl (by decide) rfl⟩

/-- C6: when extraction and the main LLM call succeed, a non-ok or thrown
classification call does not fail the submit operation: the record is still
persisted — with empty safe and risky lists — and the response still carries
the clause text and the token. -/
theorem C6_classification_soft_failure (d : SubmitDeps) (store : Store)
    (f : UploadedFile) (uid texto resposta : String)
    (hm : f.mimetype = "application/pdf") (hu : uid ≠ "")
    (hp : d.pdfParse f.path = some texto) (hne : texto ≠ "")
    (hl : d.llm (mainPrompt texto) = some resposta)
    (hfail : d.resumoFetch resposta = .notOk ∨ d.resumoFetch resposta = .threw) :
    (analisarContrato d store (some f) (some uid)).resp
      = ⟨200, .clausulasToken resposta d.newToken⟩ ∧
    ∃ reg, storeGet (analisarContrato d store (some f) (some uid)).store d.newToken
        = some reg ∧
      reg.resumoSeguras = .arr [] ∧ reg.resumoRiscos = .arr [] ∧
      reg.clausulas = resposta ∧ reg.token = d.newToken ∧ reg.pago = false := by
  have huf : optStrFalsy (some uid) = false := optStrFalsy_some_of_ne uid hu
  have hes : extractStep d f = .ok texto := by
    simp [extractStep, hm, extractTextFromPDF, hp, hne]
  rcases hfail with hf | hf
  · exact ⟨by simp [analisarContrato, huf, hes, hl],
      ⟨{ token := d.newToken, uid := uid, data := d.now, clausulas := resposta,
          resumoSeguras := .arr [], resumoRiscos := .arr [],
          recomendacoes := "Considere consultar um advogado para revisar o contrato.",
          pago := false, session_id := none },
        by simp [analisarContrato, huf, hes, hl, hf, storeGet_storeSet_self],
        rfl, rfl, rfl, rfl, rfl⟩⟩
  · exact ⟨by simp [analisarContrato, huf, hes, hl],
      ⟨{ token := d.newToken, uid := uid, data := d.now, clausulas := resposta,
          resumoSeguras := .arr [], resumoRiscos := .arr [], recomendacoes := "",
          pago := false, session_id := none },
        by simp [analisarContrato, huf, hes, hl, hf, storeGet_storeSet_self],
        rfl, rfl, rfl, rfl, rfl⟩⟩

/-- Successful lenient extraction: when the classify-LLM response embeds one
JSON object between brace-free prose, the classify operation parses that
object and returns its value with status 200. -/
theorem resumirClausulas_embedded (llm : String → Option String)
    (clausulas : String) (p mid s : List Char) (v : JsonVal)
    (hA : llm (classifyPrompt clausulas)
      = some (String.mk (p ++ (openBraceChar :: (mid ++ [closeBraceChar])) ++ s)))
    (hp : openBraceChar ∉ p) (hs : closeBraceChar ∉ s)
    (hv : parseJson (String.mk (openBraceChar :: (mid ++ [closeBraceChar]))) = some v)
    (hcl : clausulas ≠ "") :
    resumirClausulas llm (some clausulas) = ⟨200, .json v⟩ := by
  have hcf : optStrFalsy (some clausulas) = false := optStrFalsy_some_of_ne _ hcl
  have htl : (String.mk (p ++ (openBraceChar :: (mid ++ [closeBraceChar])) ++ s)).toList
      = p ++ (openBraceChar :: (mid ++ [closeBraceChar])) ++ s := rfl
  have hex := extractJsonChars_embedded p mid s hp hs
  simp only [List.append_assoc, List.cons_append, List.singleton_append,
    List.nil_append] at hex
  simp [resumirClausulas, hcf, hA, parsePipeline, htl, hex, hv]

/-- Failed lenient extraction: a classify-LLM response with no opening brace
whose fence-stripped remainder does not parse yields the 500 parse-failure
response, echoing the raw response. -/
theorem resumirClausulas_garbage (llm : String → Option String)
    (clausulas g : String)
    (hB : llm (classifyPrompt clausulas) = some g)
    (hgb : openBraceChar ∉ g.toList)
    (hgp : parseJson (String.mk (trimChars (stripFences g.toList))) = none)
    (hcl : clausulas ≠ "") :
    resumirClausulas llm (some clausulas)
      = ⟨500, .errorMsgResposta "Erro ao interpretar resposta da IA." g⟩ := by
  have hcf : optStrFalsy (some clausulas) = false := optStrFalsy_some_of_ne _ hcl
  have hex : extractJsonChars g.data = none := extractJsonChars_eq_none g.toList hgb
  have hgp2 : parseJson (String.mk (trimChars (stripFences g.data))) = none := hgp
  simp [resumirClausulas, hcf, hB, parsePipeline, hex, hgp2]

/-- C6 witness: a concrete run whose classification call is not ok. -/
theorem C6_classification_soft_failure_witness :
    (analisarContrato sampleDeps [] (some samplePdf) (some "u1")).resp
      = ⟨200, .clausulasToken "Análise: risco na cláusula 1." "tok9"⟩ ∧
    ∃ reg, storeGet (analisarContrato sampleDeps [] (some samplePdf) (some "u1")).store
        "tok9" = some reg ∧
      reg.resumoSeguras = .arr [] ∧ reg.resumoRiscos = .arr [] ∧
      reg.clausulas = "Análise: risco na cláusula 1." ∧ reg.token = "tok9" ∧
      reg.pago = false :=
  C6_classification_soft_failure sampleDeps [] samplePdf "u1"
    "Cláusula 1: rescisão unilateral." "Análise: risco na cláusula 1."
    rfl (by decide) rfl (by decide) rfl (Or.inl rfl)

/-- Collaborators for a submit run whose internal classification self-call
reaches the classify operation with a garbage model response. -/
def c8Deps : SubmitDeps :=
  { pdfParse := fun _ => some "Contrato completo.", ocr := fun _ => none,
    llm := fun _ => some "Cláusula 1: rescisão.",
    resumoFetch := resumoCallOf (fun _ => some "resposta sem json"),
    newToken := "tokC8", now := "2024-01-01T00:00:00Z" }

/-- C8: the lenient classify parser, on a model response embedding exactly
one JSON object inside brace-free prose, extracts and parses that object and
returns it as the 200 response; on garbage with no parseable JSON it returns
a 500 parse-failure response without crashing; and a submit-analysis request
whose internal classification self-call hits the garbage case still returns
its clause text and token. -/
theorem C8_lenient_json_extraction
    (llmA llmB : String → Option String) (clausulas g : String)
    (p mid s : List Char) (v : JsonVal)
    (d : SubmitDeps) (store : Store) (f : UploadedFile) (uid texto : String)
    (hA : llmA (classifyPrompt clausulas)
      = some (String.mk (p ++ (openBraceChar :: (mid ++ [closeBraceChar])) ++ s)))
    (hp : openBraceChar ∉ p) (hs : closeBraceChar ∉ s)
    (hv : parseJson (String.mk (openBraceChar :: (mid ++ [closeBraceChar]))) = some v)
    (hcl : clausulas ≠ "")
    (hB : llmB (classifyPrompt clausulas) = some g)
    (hgb : openBraceChar ∉ g.toList)
    (hgp : parseJson (String.mk (trimChars (stripFences g.toList))) = none)
    (hm : f.mimetype = "application/pdf") (hu : uid ≠ "")
    (hpdf : d.pdfParse f.path = some texto) (hne : texto ≠ "")
    (hl : d.llm (mainPrompt texto) = some clausulas)
    (hrf : d.resumoFetch = resumoCallOf llmB) :
    resumirClausulas llmA (some clausulas) = ⟨200, .json v⟩ ∧
    resumirClausulas llmB (some clausulas)
      = ⟨500, .errorMsgResposta "Erro ao interpretar resposta da IA." g⟩ ∧
    (analisarContrato d store (some f) (some uid)).resp
      = ⟨200, .clausulasToken clausulas d.newToken⟩ := by
  have h1 := resumirClausulas_embedded llmA clausulas p mid s v hA hp hs hv hcl
  have h2 := resumirClausulas_garbage llmB clausulas g hB hgb hgp hcl
  refine ⟨h1, h2, ?_⟩
  have huf : optStrFalsy (some uid) = false := optStrFalsy_some_of_ne uid hu
  have hes : extractStep d f = .ok texto := by
    simp [extractStep, hm, extractTextFromPDF, hpdf, hne]
  have hnot : d.resumoFetch clausulas = .notOk := by
    rw [hrf]
    simp [resumoCallOf, h2]
  simp [analisarContrato, huf, hes, hl]

/-- C8 witness: the specification example response with an embedded object, a
garbage response, and a full submit run over the latter. -/
theorem C8_lenient_json_extraction_witness :
    resumirClausulas (fun _ => some "blah \x7b\"seguras\":[],\"riscos\":[]\x7d blah")
        (some "Cláusula 1: rescisão.")
      = ⟨200, .json (.obj [("seguras", .arr []), ("riscos", .arr [])])⟩ ∧
    resumirClausulas (fun _ => some "resposta sem json") (some "Cláusula 1: rescisão.")
      = ⟨500, .errorMsgResposta "Erro ao interpretar resposta da IA."
          "resposta sem json"⟩ ∧
    (analisarContrato c8Deps [] (some samplePdf) (some "u1")).resp
      = ⟨200, .clausulasToken "Cláusula 1: rescisão." "tokC8"⟩ :=
  C8_lenient_json_extraction
    (fun _ => some "blah \x7b\"seguras\":[],\"riscos\":[]\x7d blah")
    (fun _ => some "resposta sem json") "Cláusula 1: rescisão." "resposta sem json"
    ("blah ".toList) ("\"seguras\":[],\"riscos\":[]".toList) (" blah".toList)
    (.obj [("seguras", .arr []), ("riscos", .arr [])])
    c8Deps [] samplePdf "u1" "Contrato completo."
    rfl (by decide) (by decide) rfl (by decide) rfl (by decide) rfl
    rfl (by decide) rfl (by decide) rfl rfl

end Backend3
